import Mathlib

/-!
Verification of the fuser expression IR (`torch/csrc/jit/fuser/common/ir.h`).

The IR nodes of `ir.h` are embedded as a Lean inductive type.  Node identity
(the C++ heap address behind the reference-counted `Expr` handle) is modelled
by tagging every node with a `Nat` identifier, allocated from a counter that
every factory function (`make`) threads through: each construction consumes
the current counter as the fresh id and returns the incremented counter.
Two handles refer to the same node exactly when the tagged trees are equal.

`expr.h` (the scalar type descriptor `Dtype`, the constants `kInt32`,
`kFloat32`, `kNull`, the promotion function `BinaryOpDtype`, `ToDtype<T>`)
is not part of the sources; those definitions are modelled from the spec and
are marked as such in their doc comments.
-/

namespace Fuser

/-- Modelled from the spec: the element kinds of a scalar type descriptor —
`enum\x7bNone, Int32, Float32\x7d`.  `expr.h`, which declares the scalar
kinds, is not in the sources. -/
inductive ScalarKind where
  | null
  | int32
  | float32
deriving DecidableEq

/-- Modelled from the spec: a scalar type descriptor is an element kind plus
a vector lane count; two descriptors are equal iff kind and lanes match.
`expr.h`, which declares `Dtype`, is not in the sources. -/
structure Dtype where
  kind : ScalarKind
  lanes : Nat
deriving DecidableEq

/-- Modelled from the spec: the `kInt32` descriptor (Int32, lanes = 1). -/
def kInt32 : Dtype := ⟨ScalarKind.int32, 1⟩

/-- Modelled from the spec: the `kFloat32` descriptor (Float32, lanes = 1). -/
def kFloat32 : Dtype := ⟨ScalarKind.float32, 1⟩

/-- Modelled from the spec: the `kNull` descriptor ("no type"), used by the
structural nodes (Block, For, Empty). -/
def kNull : Dtype := ⟨ScalarKind.null, 1⟩

/-- The operator tags of `ir.h`'s `enum IRNodeType`. -/
inductive IRNodeType where
  | kAdd
  | kSub
  | kMul
  | kDiv
deriving DecidableEq

/-- Modelled from the spec: the numeric-rank ordering of the supported kinds
(`Int32 < Float32`); kinds absent from the rank table yield `none`. -/
def kindRank : ScalarKind → Option Nat
  | ScalarKind.int32 => some 0
  | ScalarKind.float32 => some 1
  | ScalarKind.null => none

/-- Modelled from the spec: `BinaryOpDtype` (the promotion engine of
`expr.h`, not in the sources).  `promote(x, x) = x`; mismatched lane counts
are a construction-time failure; otherwise the kind of higher rank wins,
and a kind pair absent from the rank table is a construction-time failure. -/
def BinaryOpDtype (a b : Dtype) : Option Dtype :=
  if a = b then some a
  else if a.lanes = b.lanes then
    match kindRank a.kind, kindRank b.kind with
    | some ra, some rb => some ⟨if rb ≤ ra then a.kind else b.kind, a.lanes⟩
    | _, _ => none
  else none

/-- The expression nodes of `ir.h`.  The first `Nat` of every constructor is
the node's allocation identity (two handles are the same handle iff the
trees, ids included, are equal).  Constructors mirror the concrete classes:
`Cast`, `Add`/`Sub`/`Mul`/`Div` (as `binop` with an `IRNodeType` tag, the
CRTP `BinaryOpNode` pattern), `IntImm`, `FloatImm`, `Variable`, `Block`,
`For` and `EmptyExpr`. -/
inductive Expr where
  | intImm (id : Nat) (value : Int)
  | floatImm (id : Nat) (value : Float)
  | var (id : Nat) (name_hint : String) (dtype : Dtype)
  | cast (id : Nat) (dtype : Dtype) (src_value : Expr)
  | binop (id : Nat) (op : IRNodeType) (dtype : Dtype) (lhs rhs : Expr)
  | block (id : Nat) (exprs : List Expr)
  | forLoop (id : Nat) (var start stop body : Expr)
  | empty (id : Nat)

/-- `Expr::dtype()`: every node reports its scalar type descriptor.  Each
branch matches the `ExprNodeBase(...)` argument of the corresponding C++
constructor in `ir.h` (`IntImm` stores `kInt32`, `FloatImm` stores
`kFloat32`, `Block`/`For`/`EmptyExpr` store `kNull`, `Cast`, `Variable` and
the binary ops store the dtype computed at construction). -/
def Expr.dtype : Expr → Dtype
  | .intImm _ _ => kInt32
  | .floatImm _ _ => kFloat32
  | .var _ _ d => d
  | .cast _ d _ => d
  | .binop _ _ d _ _ => d
  | .block _ _ => kNull
  | .forLoop _ _ _ _ _ => kNull
  | .empty _ => kNull

/-- `BinaryOpNode::lhs()`; `none` on nodes that are not binary ops. -/
def Expr.lhs? : Expr → Option Expr
  | .binop _ _ _ l _ => some l
  | _ => none

/-- `BinaryOpNode::rhs()`; `none` on nodes that are not binary ops. -/
def Expr.rhs? : Expr → Option Expr
  | .binop _ _ _ _ r => some r
  | _ => none

/-- `Cast::src_value()`; `none` on nodes that are not casts. -/
def Expr.src_value? : Expr → Option Expr
  | .cast _ _ s => some s
  | _ => none

/-- Whether the node is a `Cast` node. -/
def Expr.isCast : Expr → Bool
  | .cast _ _ _ => true
  | _ => false

/-- `For::var()`; `none` on nodes that are not loops. -/
def Expr.var? : Expr → Option Expr
  | .forLoop _ v _ _ _ => some v
  | _ => none

/-- `For::start()`; `none` on nodes that are not loops. -/
def Expr.start? : Expr → Option Expr
  | .forLoop _ _ s _ _ => some s
  | _ => none

/-- `For::stop()`; `none` on nodes that are not loops. -/
def Expr.stop? : Expr → Option Expr
  | .forLoop _ _ _ s _ => some s
  | _ => none

/-- `For::body()`; `none` on nodes that are not loops. -/
def Expr.body? : Expr → Option Expr
  | .forLoop _ _ _ _ b => some b
  | _ => none

/-- `IntImm::make(int value)`. -/
def IntImm.make (value : Int) (c : Nat) : Expr × Nat :=
  (.intImm c value, c + 1)

/-- `FloatImm::make(float value)`. -/
def FloatImm.make (value : Float) (c : Nat) : Expr × Nat :=
  (.floatImm c value, c + 1)

/-- `Variable::make(const std::string& name_hint, Dtype dtype)`. -/
def Variable.make (name_hint : String) (dtype : Dtype) (c : Nat) : Expr × Nat :=
  (.var c name_hint dtype, c + 1)

/-- `Cast::make(Dtype dtype, const Expr& src_value)`: unconditionally
allocates a new `Cast` node of exactly `dtype` wrapping `src_value`. -/
def Cast.make (dtype : Dtype) (src_value : Expr) (c : Nat) : Expr × Nat :=
  (.cast c dtype src_value, c + 1)

/-- The generic `cast<T>(src_value)` helper of `ir.h`:
`Cast::make(Dtype(ToDtype<T>(), src_value.dtype().lanes()), src_value)`.
The caller-level type `T` is represented by its scalar kind (`ToDtype<T>`,
declared in the missing `expr.h`, is per the spec the map from `T` to the
kind). -/
def cast (t : ScalarKind) (src_value : Expr) (c : Nat) : Expr × Nat :=
  Cast.make ⟨t, src_value.dtype.lanes⟩ src_value c

/-- `BinaryOpNode::CastIfNeeded(const Expr& expr, Dtype dst_dtype)`:
returns the operand unchanged when its dtype already equals `dst_dtype`,
otherwise wraps it in a new `Cast` node. -/
def CastIfNeeded (e : Expr) (dst_dtype : Dtype) (c : Nat) : Expr × Nat :=
  if e.dtype = dst_dtype then (e, c)
  else Cast.make dst_dtype e c

/-- The shared `BinaryOpNode` constructor: computes the result dtype by
`BinaryOpDtype` (failure propagates to the caller), coerces each operand
with `CastIfNeeded` (lhs first, matching member-initialization order), and
stores the operands with the operator tag.  `Add::make`, `Sub::make`,
`Mul::make` and `Div::make` instantiate it. -/
def BinaryOpNode.make (op : IRNodeType) (lhs rhs : Expr) (c : Nat) :
    Option (Expr × Nat) :=
  match BinaryOpDtype lhs.dtype rhs.dtype with
  | none => none
  | some d =>
    some (.binop (CastIfNeeded rhs d (CastIfNeeded lhs d c).2).2 op d
            (CastIfNeeded lhs d c).1
            (CastIfNeeded rhs d (CastIfNeeded lhs d c).2).1,
          (CastIfNeeded rhs d (CastIfNeeded lhs d c).2).2 + 1)

/-- `Add::make`. -/
def Add.make (lhs rhs : Expr) (c : Nat) : Option (Expr × Nat) :=
  BinaryOpNode.make IRNodeType.kAdd lhs rhs c

/-- `Sub::make`. -/
def Sub.make (lhs rhs : Expr) (c : Nat) : Option (Expr × Nat) :=
  BinaryOpNode.make IRNodeType.kSub lhs rhs c

/-- `Mul::make`. -/
def Mul.make (lhs rhs : Expr) (c : Nat) : Option (Expr × Nat) :=
  BinaryOpNode.make IRNodeType.kMul lhs rhs c

/-- `Div::make`. -/
def Div.make (lhs rhs : Expr) (c : Nat) : Option (Expr × Nat) :=
  BinaryOpNode.make IRNodeType.kDiv lhs rhs c

/-- `Block::make(const std::vector<Expr>& exprs)`: stores the sequence
verbatim. -/
def Block.make (exprs : List Expr) (c : Nat) : Expr × Nat :=
  (.block c exprs, c + 1)

/-- `For::make(var, start, stop, body)`: stores the four handles with no
check on `var` (the constructor carries only a TODO comment). -/
def For.make (var start stop body : Expr) (c : Nat) : Expr × Nat :=
  (.forLoop c var start stop body, c + 1)

/-- `EmptyExpr::make()`. -/
def EmptyExpr.make (c : Nat) : Expr × Nat :=
  (.empty c, c + 1)

/-- Outcome of an element access on a block.  `ok` returns the handle;
`rangeError` is an out-of-range condition reported to the caller (what the
spec requires); `ub` is undefined behavior — the unchecked
`std::vector::operator[]` access that `Block::expr` actually performs when
the index is outside the buffer. -/
inductive ExprResult where
  | ok (e : Expr)
  | rangeError
  | ub

/-- `Block::nexprs()`: the stored sequence's length (returned as a C++
`int`). -/
def Block.nexprs (exprs : List Expr) : Int :=
  exprs.length

/-- `Block::expr(int index) const \x7b return exprs_[index]; \x7d`: the
index is used to subscript the underlying vector with no bounds check, so
an in-range index returns the stored handle and any other index is
undefined behavior (`std::vector::operator[]` out of range). -/
def Block.expr (exprs : List Expr) (index : Int) : ExprResult :=
  if h : 0 ≤ index ∧ index < (exprs.length : Int) then
    ExprResult.ok (exprs.get ⟨index.toNat, by omega⟩)
  else
    ExprResult.ub

/-- `nexprs()` viewed through a handle; `none` on nodes that are not
blocks. -/
def Expr.nexprs? : Expr → Option Int
  | .block _ es => some (Block.nexprs es)
  | _ => none

/-- `expr(index)` viewed through a handle; `none` on nodes that are not
blocks. -/
def Expr.expr? : Expr → Int → Option ExprResult
  | .block _ es, index => some (Block.expr es index)
  | _, _ => none

/-- `CastIfNeeded` always returns an expression of exactly the requested
dtype: either the operand already had it, or a `Cast` node to it was made. -/
theorem CastIfNeeded_dtype (e : Expr) (d : Dtype) (c : Nat) :
    ((CastIfNeeded e d c).1).dtype = d := by
  unfold CastIfNeeded
  split
  · assumption
  · rfl

/-- Inversion of a successful `BinaryOpNode.make`: the node is a `binop`
whose children both carry the node's own dtype. -/
theorem BinaryOpNode.make_children_dtype (op : IRNodeType) (lhs rhs : Expr)
    (c : Nat) (e : Expr) (c2 : Nat)
    (h : BinaryOpNode.make op lhs rhs c = some (e, c2)) :
    e.lhs?.map Expr.dtype = some e.dtype ∧
    e.rhs?.map Expr.dtype = some e.dtype := by
  unfold BinaryOpNode.make at h
  cases heq : BinaryOpDtype lhs.dtype rhs.dtype with
  | none => rw [heq] at h; cases h
  | some d =>
    rw [heq] at h
    simp only [Option.some.injEq, Prod.mk.injEq] at h
    obtain ⟨he, -⟩ := h
    subst he
    refine ⟨?_, ?_⟩
    · show some ((CastIfNeeded lhs d c).1.dtype) = some d
      rw [CastIfNeeded_dtype]
    · show some ((CastIfNeeded rhs d (CastIfNeeded lhs d c).2).1.dtype) = some d
      rw [CastIfNeeded_dtype]

/-- Claim C1: for every pair of operands accepted by construction, the node
returned by `Add::make`, `Sub::make`, `Mul::make` or `Div::make` satisfies
`result.lhs().dtype() == result.rhs().dtype() == result.dtype()`. -/
theorem binaryOp_children_dtype_eq (lhs rhs : Expr) (c : Nat) (e : Expr)
    (c2 : Nat) :
    (Add.make lhs rhs c = some (e, c2) →
      e.lhs?.map Expr.dtype = some e.dtype ∧
      e.rhs?.map Expr.dtype = some e.dtype) ∧
    (Sub.make lhs rhs c = some (e, c2) →
      e.lhs?.map Expr.dtype = some e.dtype ∧
      e.rhs?.map Expr.dtype = some e.dtype) ∧
    (Mul.make lhs rhs c = some (e, c2) →
      e.lhs?.map Expr.dtype = some e.dtype ∧
      e.rhs?.map Expr.dtype = some e.dtype) ∧
    (Div.make lhs rhs c = some (e, c2) →
      e.lhs?.map Expr.dtype = some e.dtype ∧
      e.rhs?.map Expr.dtype = some e.dtype) :=
  ⟨fun h => BinaryOpNode.make_children_dtype IRNodeType.kAdd lhs rhs c e c2 h,
   fun h => BinaryOpNode.make_children_dtype IRNodeType.kSub lhs rhs c e c2 h,
   fun h => BinaryOpNode.make_children_dtype IRNodeType.kMul lhs rhs c e c2 h,
   fun h => BinaryOpNode.make_children_dtype IRNodeType.kDiv lhs rhs c e c2 h⟩

/-- Witness for claim C1 at a concrete input: `Add::make` on two `Int32`
immediates. -/
theorem binaryOp_children_dtype_eq_witness :
    (Expr.binop 2 IRNodeType.kAdd kInt32 (Expr.intImm 0 3)
        (Expr.intImm 1 4)).lhs?.map Expr.dtype
      = some (Expr.binop 2 IRNodeType.kAdd kInt32 (Expr.intImm 0 3)
          (Expr.intImm 1 4)).dtype ∧
    (Expr.binop 2 IRNodeType.kAdd kInt32 (Expr.intImm 0 3)
        (Expr.intImm 1 4)).rhs?.map Expr.dtype
      = some (Expr.binop 2 IRNodeType.kAdd kInt32 (Expr.intImm 0 3)
          (Expr.intImm 1 4)).dtype :=
  (binaryOp_children_dtype_eq (Expr.intImm 0 3) (Expr.intImm 1 4) 2
    (Expr.binop 2 IRNodeType.kAdd kInt32 (Expr.intImm 0 3) (Expr.intImm 1 4))
    3).1 rfl

/-- Claim C5: `Cast::make(d, e)` always succeeds and returns a `Cast` node
of exactly dtype `d` whose `src_value()` is `e`, even when `e` already has
dtype `d` (identity casts are never elided). -/
theorem cast_make_exact (d : Dtype) (e : Expr) (c : Nat) :
    ((Cast.make d e c).1).isCast = true ∧
    ((Cast.make d e c).1).dtype = d ∧
    ((Cast.make d e c).1).src_value? = some e :=
  ⟨rfl, rfl, rfl⟩

/-- Claim C10: the generic `cast<T>` helper returns a `Cast` node whose
dtype pairs the kind for `T` with the source's lane count, wrapping the
source. -/
theorem cast_helper_exact (t : ScalarKind) (e : Expr) (c : Nat) :
    ((cast t e c).1).isCast = true ∧
    ((cast t e c).1).dtype = ⟨t, e.dtype.lanes⟩ ∧
    ((cast t e c).1).src_value? = some e :=
  ⟨rfl, rfl, rfl⟩

/-- Claim C7: `For::make(var, start, stop, body)` accepts any four handles
(no check that `var` is a Variable node), has dtype `kNull`, and its
accessors return exactly the supplied handles. -/
theorem for_make_exact (v s t b : Expr) (c : Nat) :
    ((For.make v s t b c).1).dtype = kNull ∧
    ((For.make v s t b c).1).var? = some v ∧
    ((For.make v s t b c).1).start? = some s ∧
    ((For.make v s t b c).1).stop? = some t ∧
    ((For.make v s t b c).1).body? = some b :=
  ⟨rfl, rfl, rfl, rfl, rfl⟩

/-- Claim C9: two calls of `Variable::make` with the same name hint and the
same dtype allocate two distinct nodes — the handles never refer to the
same node. -/
theorem variable_make_distinct (name : String) (d : Dtype) (c : Nat) :
    (Variable.make name d c).1
      ≠ (Variable.make name d (Variable.make name d c).2).1 := by
  intro h
  have h2 : Expr.var c name d = Expr.var (c + 1) name d := h
  injection h2 with h3 h4 h5
  omega

/-- Claim C3: `Add::make(IntImm::make(3), FloatImm::make(2.0))` yields a
node of dtype `Float32` whose `lhs()` is a `Cast` node of dtype `Float32`
wrapping the original integer immediate and whose `rhs()` is the original
float immediate handle unchanged (stated for an arbitrary allocation
counter `c`). -/
theorem add_int_float_promotes (c : Nat) :
    ∃ e c3 l,
      Add.make (IntImm.make 3 c).1 (FloatImm.make 2.0 (IntImm.make 3 c).2).1
          (FloatImm.make 2.0 (IntImm.make 3 c).2).2 = some (e, c3) ∧
      e.dtype = kFloat32 ∧
      e.lhs? = some l ∧
      l.isCast = true ∧
      l.dtype = kFloat32 ∧
      l.src_value? = some (IntImm.make 3 c).1 ∧
      e.rhs? = some (FloatImm.make 2.0 (IntImm.make 3 c).2).1 :=
  ⟨_, _, _, rfl, rfl, rfl, rfl, rfl, rfl, rfl⟩

/-- Claim C4: an operand whose dtype already equals the promoted result
type is stored unchanged — the very same handle, no `Cast` inserted; in
particular `Add::make(IntImm::make(3), IntImm::make(4))` has dtype `Int32`
and its children are exactly the two original immediate handles. -/
theorem operand_reuse :
    (∀ (op : IRNodeType) (lhs rhs : Expr) (c : Nat) (e : Expr) (c2 : Nat),
        BinaryOpNode.make op lhs rhs c = some (e, c2) →
        (lhs.dtype = e.dtype → e.lhs? = some lhs) ∧
        (rhs.dtype = e.dtype → e.rhs? = some rhs)) ∧
    (∀ c : Nat, ∃ e c2,
        Add.make (IntImm.make 3 c).1 (IntImm.make 4 (IntImm.make 3 c).2).1
            (IntImm.make 4 (IntImm.make 3 c).2).2 = some (e, c2) ∧
        e.dtype = kInt32 ∧
        e.lhs? = some (IntImm.make 3 c).1 ∧
        e.rhs? = some (IntImm.make 4 (IntImm.make 3 c).2).1) := by
  constructor
  · intro op lhs rhs c e c2 h
    unfold BinaryOpNode.make at h
    cases heq : BinaryOpDtype lhs.dtype rhs.dtype with
    | none => rw [heq] at h; cases h
    | some d =>
      rw [heq] at h
      simp only [Option.some.injEq, Prod.mk.injEq] at h
      obtain ⟨he, -⟩ := h
      subst he
      constructor
      · intro hl
        have hld : lhs.dtype = d := hl
        show some ((CastIfNeeded lhs d c).1) = some lhs
        simp [CastIfNeeded, hld]
      · intro hr
        have hrd : rhs.dtype = d := hr
        show some ((CastIfNeeded rhs d (CastIfNeeded lhs d c).2).1) = some rhs
        simp [CastIfNeeded, hrd]
  · intro c
    exact ⟨_, _, rfl, rfl, rfl, rfl⟩

/-- Witness for claim C4 at a concrete input: both `Int32` operands of an
`Add` over equal dtypes are reused unchanged. -/
theorem operand_reuse_witness :
    (Expr.binop 2 IRNodeType.kAdd kInt32 (Expr.intImm 0 3)
        (Expr.intImm 1 4)).lhs? = some (Expr.intImm 0 3) ∧
    (Expr.binop 2 IRNodeType.kAdd kInt32 (Expr.intImm 0 3)
        (Expr.intImm 1 4)).rhs? = some (Expr.intImm 1 4) :=
  ⟨(operand_reuse.1 IRNodeType.kAdd (Expr.intImm 0 3) (Expr.intImm 1 4) 2
      (Expr.binop 2 IRNodeType.kAdd kInt32 (Expr.intImm 0 3)
        (Expr.intImm 1 4)) 3 rfl).1 rfl,
   (operand_reuse.1 IRNodeType.kAdd (Expr.intImm 0 3) (Expr.intImm 1 4) 2
      (Expr.binop 2 IRNodeType.kAdd kInt32 (Expr.intImm 0 3)
        (Expr.intImm 1 4)) 3 rfl).2 rfl⟩

/-- Claim C8: `Block::make([e0, ..., e(n-1)])` stores the sequence verbatim,
has dtype `kNull`, `nexprs()` reports `n`, and `expr(i)` returns exactly the
i-th stored handle for every `i` in `[0, n)`. -/
theorem block_make_exact (exprs : List Expr) (c : Nat) :
    ((Block.make exprs c).1).dtype = kNull ∧
    (Block.make exprs c).1 = Expr.block c exprs ∧
    ((Block.make exprs c).1).nexprs? = some (exprs.length : Int) ∧
    (∀ (i : Int) (h : 0 ≤ i ∧ i < (exprs.length : Int)),
       ((Block.make exprs c).1).expr? i
         = some (ExprResult.ok (exprs.get ⟨i.toNat, by omega⟩))) := by
  refine ⟨rfl, rfl, rfl, ?_⟩
  intro i h
  show some (Block.expr exprs i) = _
  unfold Block.expr
  rw [dif_pos h]

/-- Witness for claim C8 at a concrete input: a block of three immediates,
queried at index 1. -/
theorem block_make_exact_witness :
    ((Block.make [Expr.intImm 0 1, Expr.intImm 1 2, Expr.intImm 2 3] 3).1).expr? 1
      = some (ExprResult.ok (Expr.intImm 1 2)) :=
  (block_make_exact [Expr.intImm 0 1, Expr.intImm 1 2, Expr.intImm 2 3] 3).2.2.2
    1 ⟨by decide, by decide⟩

/-- Claim C2 counterexample: `Block::expr` on the empty block at index 3
performs an unchecked vector access (undefined behavior) — it does not
report an out-of-range condition to the caller. -/
theorem block_expr_not_reported :
    ((Block.make [] 0).1).expr? 3 = some ExprResult.ub ∧
    some ExprResult.ub ≠ some ExprResult.rangeError := by
  refine ⟨rfl, ?_⟩
  intro h
  injection h with h2
  exact ExprResult.noConfusion h2

/-- Claim C2 amended: for every integer index outside `[0, nexprs())`,
`Block::expr(index)` does not return a handle, but the failure is an
unchecked out-of-bounds access on the underlying vector — undefined
behavior, not an out-of-range condition reported to the caller. -/
theorem block_expr_out_of_range_ub (exprs : List Expr) (index : Int)
    (h : index < 0 ∨ (exprs.length : Int) ≤ index) :
    Block.expr exprs index = ExprResult.ub := by
  have hn : ¬(0 ≤ index ∧ index < (exprs.length : Int)) := by omega
  unfold Block.expr
  rw [dif_neg hn]

/-- Witness for the amended claim C2 at a concrete input: the empty block
at index 3. -/
theorem block_expr_out_of_range_ub_witness :
    ((3 : Int) < 0 ∨ ((List.length ([] : List Expr)) : Int) ≤ 3) ∧
    Block.expr [] 3 = ExprResult.ub :=
  ⟨Or.inr (by decide), block_expr_out_of_range_ub [] 3 (Or.inr (by decide))⟩

/-- Claim C6: type promotion is commutative, and promoting a descriptor
with itself returns it unchanged. -/
theorem promote_comm_idem :
    (∀ a b : Dtype, BinaryOpDtype a b = BinaryOpDtype b a) ∧
    (∀ a : Dtype, BinaryOpDtype a a = some a) := by
  constructor
  · intro a b
    by_cases hab : a = b
    · subst hab; rfl
    · have hba : ¬ b = a := fun h => hab h.symm
      unfold BinaryOpDtype
      rw [if_neg hab, if_neg hba]
      by_cases hl : a.lanes = b.lanes
      · rw [if_pos hl, if_pos hl.symm]
        obtain ⟨ka, la⟩ := a
        obtain ⟨kb, lb⟩ := b
        simp only at hl
        cases ka <;> cases kb <;> simp_all [kindRank]
      · rw [if_neg hl, if_neg (fun h => hl h.symm)]
  · intro a
    unfold BinaryOpDtype
    rw [if_pos rfl]

end Fuser
